import Mathlib

/-!
Shallow embedding of src/server.py (an ISS position tracker: a poll loop
fetching positions from an upstream API, an SQLite-backed sample store, and
read endpoints with day filtering, pagination and CSV export).

Conventions of the embedding:
* Python floats are modelled as rationals; the code only moves these values
  around (no float arithmetic is relevant to any claim).
* JSON payloads and Python dicts are modelled by the inductive `PyVal`
  (association lists for objects).  A numeric string (as sent by the
  open-notify API, for example "45.1234") is modelled by the constructor
  `PyVal.numStr` carrying the parsed value; Python float() accepts it,
  Python int() rejects it (ValueError on a float-formatted string).
* Python exceptions raised and caught around parsing are modelled with
  `Except PyErr`.
* The SQLite table iss_positions is modelled as a `List Row` in insertion
  order, with `rowid` modelling the AUTOINCREMENT primary key.
  SQLite TEXT comparison (BINARY collation, bytewise) on the ASCII
  timestamp strings is modelled by `strLt`, lexicographic on code points.
  A query with ORDER BY timestamp DESC is served through the index
  idx_timestamp scanned in reverse, which yields rows in decreasing
  (timestamp, rowid) lexicographic key order; `sortTsDesc` models that
  ordering, and `api_current_fallback` models ORDER BY timestamp DESC
  LIMIT 1 as the maximum of the same key.
* datetime.utcfromtimestamp(t).strftime("%Y-%m-%d %H:%M:%S") is modelled
  by `formatTs`, built from the standard civil-from-days calendar
  algorithm; strftime("%Y-%m-%d") is `formatDate`.
-/

/-- Decimal digit character of n % 10. -/
def digitChar (n : Nat) : Char :=
  match n % 10 with
  | 0 => '0' | 1 => '1' | 2 => '2' | 3 => '3' | 4 => '4'
  | 5 => '5' | 6 => '6' | 7 => '7' | 8 => '8' | _ => '9'

/-- Fuel-driven digit expansion; the fuel only bounds the recursion depth
so that the definition is structural (hence kernel-reducible). -/
def natCharsAux : Nat → Nat → List Char
  | 0, n => [digitChar n]
  | fuel + 1, n =>
    if n < 10 then [digitChar n]
    else natCharsAux fuel (n / 10) ++ [digitChar (n % 10)]

/-- Decimal digits of a natural number, most significant first. -/
def natChars (n : Nat) : List Char := natCharsAux n n

/-- Decimal rendering of a natural number. -/
def natStr (n : Nat) : String := ⟨natChars n⟩

/-- Zero-pad to two digits, as strftime %m, %d, %H, %M, %S do. -/
def pad2 (n : Nat) : String := if n < 10 then ⟨'0' :: natChars n⟩ else natStr n

/-- Zero-pad to four digits, as strftime %Y does for common years. -/
def pad4 (n : Nat) : String :=
  ⟨List.replicate (4 - (natChars n).length) '0' ++ natChars n⟩

/-- Year rendering, signed. -/
def yearStr (y : Int) : String :=
  if y < 0 then ⟨'-' :: natChars (-y).toNat⟩ else pad4 y.toNat

/-- Standard civil-from-days conversion: day count relative to 1970-01-01
yields (year, month, day-of-month) in the proleptic Gregorian calendar. -/
def civilFromDays (z : Int) : Int × Nat × Nat :=
  let zs : Int := z + 719468
  let era : Int := zs.fdiv 146097
  let doe : Nat := (zs - era * 146097).toNat
  let yoe : Nat := (doe - doe / 1460 + doe / 36524 - doe / 146096) / 365
  let y : Int := (yoe : Int) + era * 400
  let doy : Nat := doe - (365 * yoe + yoe / 4 - yoe / 100)
  let mp : Nat := (5 * doy + 2) / 153
  let d : Nat := doy - (153 * mp + 2) / 5 + 1
  let m : Nat := if mp < 10 then mp + 3 else mp - 9
  (if m ≤ 2 then y + 1 else y, m, d)

/-- Models strftime("%Y-%m-%d") of utcfromtimestamp(t). -/
def formatDate (t : Int) : String :=
  let c := civilFromDays (t.fdiv 86400)
  yearStr c.1 ++ "-" ++ pad2 c.2.1 ++ "-" ++ pad2 c.2.2

/-- Models strftime("%H:%M:%S") of utcfromtimestamp(t). -/
def formatTime (t : Int) : String :=
  let s : Nat := (t.fmod 86400).toNat
  pad2 (s / 3600) ++ ":" ++ pad2 (s % 3600 / 60) ++ ":" ++ pad2 (s % 60)

/-- Models datetime.utcfromtimestamp(t).strftime("%Y-%m-%d %H:%M:%S"). -/
def formatTs (t : Int) : String := formatDate t ++ " " ++ formatTime t

/-- Characters of a string up to (excluding) the first space. -/
def takeUntilSpace : List Char → List Char
  | [] => []
  | c :: cs => if c = ' ' then [] else c :: takeUntilSpace cs

/-- Models the Python expression s.split(" ")[0]. -/
def splitHead (s : String) : String := ⟨takeUntilSpace s.data⟩

/-- Lexicographic comparison of character lists by code point; on ASCII
strings this agrees with both Python string comparison and the SQLite
BINARY collation used for the TEXT timestamp column. -/
def charListLt : List Char → List Char → Bool
  | [], [] => false
  | [], _ :: _ => true
  | _ :: _, [] => false
  | a :: as, b :: bs =>
    if a.toNat < b.toNat then true
    else if b.toNat < a.toNat then false
    else charListLt as bs

/-- String comparison used for the timestamp and day TEXT columns. -/
def strLt (a b : String) : Bool := charListLt a.data b.data

/-- Model of a JSON value / Python object as passed around by the code.
A numeric JSON value (Python int or float) is `num`; a string that Python
float() would parse, written in float syntax (as open-notify sends
coordinates), is `numStr` carrying the parsed value; any other string is
`str`; Python None / JSON null is `pyNone`. -/
inductive PyVal : Type where
  | num (x : ℚ)
  | numStr (x : ℚ)
  | str (s : String)
  | pyNone
  | obj (fields : List (String × PyVal))
  | boolean (b : Bool)

/-- Python dict with string keys. -/
abbrev PyDict := List (String × PyVal)

/-- Exceptions raised by the parsing code. -/
inductive PyErr : Type where
  | typeErr
  | valueErr
  | attrErr
deriving Repr, DecidableEq

/-- Models d.get(k): first binding of k, or absence (Python None). -/
def dictGet : PyDict → String → Option PyVal
  | [], _ => none
  | (k, v) :: rest, key => if k = key then some v else dictGet rest key

/-- Models Python float(v).  float of a number is itself, float of a
float-syntax string is its value, float of a bool is 0 or 1, float of
None or of a dict raises TypeError, float of any other string raises
ValueError. -/
def pyFloat : PyVal → Except PyErr ℚ
  | .num x => .ok x
  | .numStr x => .ok x
  | .boolean b => .ok (if b then 1 else 0)
  | .str _ => .error .valueErr
  | .pyNone => .error .typeErr
  | .obj _ => .error .typeErr

/-- Models Python int(v).  int of a number truncates toward zero, int of a
float-syntax string raises ValueError (int("12.5") is an error), int of a
bool is 0 or 1, int of None or of a dict raises TypeError. -/
def pyInt : PyVal → Except PyErr Int
  | .num x => .ok (x.num.tdiv (x.den : Int))
  | .numStr _ => .error .valueErr
  | .boolean b => .ok (if b then 1 else 0)
  | .str _ => .error .valueErr
  | .pyNone => .error .typeErr
  | .obj _ => .error .typeErr

/-- Models Python truthiness of d.get(k) (used by `if data.get("iss_position"):`):
a missing key or None is falsy, an empty dict or empty string or zero is
falsy, everything else is truthy. -/
def pyTruthy : Option PyVal → Bool
  | none => false
  | some .pyNone => false
  | some (.num x) => decide (x ≠ 0)
  | some (.numStr _) => true
  | some (.str s) => !s.data.isEmpty
  | some (.obj fs) => !fs.isEmpty
  | some (.boolean b) => b

/-- Models int(data.get("timestamp", time.time())), line 172 and 181:
int of the timestamp member when present, otherwise the caller-supplied
clock reading (already an integer). -/
def tsStep (now : Int) (data : PyDict) : Except PyErr Int :=
  match dictGet data "timestamp" with
  | some v => pyInt v
  | none => Except.ok now

/-- Models line 176: float(data.get("altitude", 0.0)) if
data.get("altitude") is not None else None.  A missing or None altitude
member gives None; any other value goes through float(). -/
def altitudeStep (data : PyDict) : Except PyErr PyVal :=
  match dictGet data "altitude" with
  | some .pyNone => Except.ok PyVal.pyNone
  | some v => do
    let a ← pyFloat v
    Except.ok (PyVal.num a)
  | none => Except.ok PyVal.pyNone

/-- Models pos = data.get("iss_position", {}) as used on line 182:
a present dict member is taken as is, a missing member defaults to the
empty dict, and calling .get later on a present non-dict value raises
AttributeError. -/
def issPositionStep (data : PyDict) : Except PyErr PyDict :=
  match dictGet data "iss_position" with
  | some (.obj fs) => Except.ok fs
  | some _ => Except.error PyErr.attrErr
  | none => Except.ok ([] : PyDict)

/-- Models parse_wther_resp (src/server.py lines 171-178): the flat
wheretheiss.at shape.  The timestamp is converted first (line 172, with
int(time.time()) as default, supplied here as `now`), then the dict
literal evaluates latitude, longitude and altitude in order.  The result
is the returned dict. -/
def parse_wther_resp (now : Int) (data : PyDict) : Except PyErr PyDict := do
  let ts ← tsStep now data
  let lat ← pyFloat ((dictGet data "latitude").getD .pyNone)
  let lon ← pyFloat ((dictGet data "longitude").getD .pyNone)
  let alt ← altitudeStep data
  Except.ok [("latitude", .num lat), ("longitude", .num lon),
             ("altitude", alt), ("ts_utc", .str (formatTs ts))]

/-- Models parse_open_notify (src/server.py lines 180-188): the nested
open-notify shape. -/
def parse_open_notify (now : Int) (data : PyDict) : Except PyErr PyDict := do
  let ts ← tsStep now data
  let pos ← issPositionStep data
  let lat ← pyFloat ((dictGet pos "latitude").getD .pyNone)
  let lon ← pyFloat ((dictGet pos "longitude").getD .pyNone)
  Except.ok [("latitude", .num lat), ("longitude", .num lon),
             ("altitude", PyVal.pyNone), ("ts_utc", .str (formatTs ts))]

/-- Outcome of the HTTP GET in fetch_iss_position. -/
inductive FetchOutcome : Type where
  | netErr
  | httpErr (code : Nat)
  | badJson
  | jsonOf (v : PyVal)

/-- Models fetch_iss_position (src/server.py lines 190-202): network
errors, non-2xx statuses, malformed bodies and parser exceptions are all
caught by the blanket except and turn into None.  Shape dispatch follows
line 196: a dict body with a truthy iss_position member goes to
parse_open_notify, any other dict body to parse_wther_resp; a non-dict
body makes parse_wther_resp raise AttributeError on data.get, hence None. -/
def fetch_iss_position (now : Int) (r : FetchOutcome) : Option PyDict :=
  match r with
  | .netErr => none
  | .httpErr _ => none
  | .badJson => none
  | .jsonOf (.obj data) =>
    if pyTruthy (dictGet data "iss_position")
    then (parse_open_notify now data).toOption
    else (parse_wther_resp now data).toOption
  | .jsonOf _ => none

/-- One row of the iss_positions table. -/
structure Row : Type where
  rowid : Nat
  latitude : ℚ
  longitude : ℚ
  altitude : Option ℚ
  timestamp : String
  day : String
deriving Repr, DecidableEq

/-- The iss_positions table, in insertion order. -/
abbrev Store := List Row

/-- Next AUTOINCREMENT rowid: one more than the largest rowid present. -/
def nextRowid (st : Store) : Nat :=
  st.foldr (fun r acc => max r.rowid acc) 0 + 1

/-- Models save_position (src/server.py lines 65-77): the day column is
the prefix of ts_utc before the first space (line 67), and the row is
INSERTed at the end of the table. -/
def save_position (lat lon : ℚ) (alt : Option ℚ) (ts_utc : String) (st : Store) : Store :=
  st ++ [{ rowid := nextRowid st, latitude := lat, longitude := lon,
           altitude := alt, timestamp := ts_utc, day := splitHead ts_utc }]

/-- Models cleanup_old_data with cleanup enabled (src/server.py lines
79-93): DELETE FROM iss_positions WHERE timestamp < cutoff, where cutoff
is the strftime rendering of utcnow minus the retention period.  Returns
the surviving table and cur.rowcount (the number of deleted rows). -/
def cleanup_old_data (cutoff : String) (st : Store) : Store × Nat :=
  (st.filter (fun r => !strLt r.timestamp cutoff),
   (st.filter (fun r => strLt r.timestamp cutoff)).length)

/-- Models get_record_count (src/server.py lines 95-105): SELECT COUNT(*). -/
def get_record_count (st : Store) : Nat := st.length

/-- Output order of ORDER BY timestamp DESC: row a precedes row b when the
key (timestamp, rowid) of b is lexicographically no greater than that of
a (SQLite serves the query by scanning idx_timestamp in reverse; within
equal timestamps the index stores rowids ascending, so the reverse scan
yields larger rowids first). -/
def rowLe (a b : Row) : Prop :=
  strLt b.timestamp a.timestamp = true ∨
    (b.timestamp = a.timestamp ∧ b.rowid ≤ a.rowid)

instance : DecidableRel rowLe := fun a b =>
  inferInstanceAs (Decidable (_ ∨ _))

/-- Output order of ORDER BY timestamp ASC (forward index scan). -/
def rowLeAsc (a b : Row) : Prop :=
  strLt a.timestamp b.timestamp = true ∨
    (a.timestamp = b.timestamp ∧ a.rowid ≤ b.rowid)

instance : DecidableRel rowLeAsc := fun a b =>
  inferInstanceAs (Decidable (_ ∨ _))

/-- Rows in the output order of ORDER BY timestamp DESC. -/
def sortTsDesc (l : List Row) : List Row := List.insertionSort rowLe l

/-- Rows in the output order of ORDER BY timestamp ASC. -/
def sortTsAsc (l : List Row) : List Row := List.insertionSort rowLeAsc l

/-- Strict version of the DESC key order: b has strictly larger
(timestamp, rowid) key than a. -/
def rowKeyLt (a b : Row) : Bool :=
  strLt a.timestamp b.timestamp ||
    (decide (a.timestamp = b.timestamp) && decide (a.rowid < b.rowid))

/-- Step of a running maximum over the (timestamp, rowid) key. -/
def maxRowStep (acc : Option Row) (r : Row) : Option Row :=
  match acc with
  | none => some r
  | some a => if rowKeyLt a r then some r else some a

/-- Models the fallback query of api_current (src/server.py line 271):
SELECT ... ORDER BY timestamp DESC LIMIT 1, i.e. the row with the largest
(timestamp, rowid) key, or None on an empty table. -/
def api_current_fallback (st : Store) : Option Row :=
  st.foldl maxRowStep none

/-- Ascending order on the day TEXT column. -/
def dayLeAsc (a b : String) : Prop := strLt b a = false

instance : DecidableRel dayLeAsc := fun a b =>
  inferInstanceAs (Decidable (_ = _))

/-- Descending order on the day TEXT column. -/
def dayLeDesc (a b : String) : Prop := strLt a b = false

instance : DecidableRel dayLeDesc := fun a b =>
  inferInstanceAs (Decidable (_ = _))

/-- Models get_available_days (src/server.py lines 120-130): SELECT
DISTINCT day ... ORDER BY day ASC, i.e. the distinct day values sorted
ascending. -/
def get_available_days (st : Store) : List String :=
  List.insertionSort dayLeAsc (st.map (fun r => r.day)).dedup

/-- Models SELECT DISTINCT day ... ORDER BY day DESC (src/server.py lines
345 and 357). -/
def distinctDaysDesc (st : Store) : List String :=
  List.insertionSort dayLeDesc (st.map (fun r => r.day)).dedup

/-- Models Python int(s) on a string: optional sign followed by decimal
digits; anything else raises ValueError (modelled as none). -/
def digitsAux : Nat → List Char → Option Nat
  | acc, [] => some acc
  | acc, c :: cs =>
    if c.isDigit then digitsAux (acc * 10 + (c.toNat - 48)) cs else none

/-- Integer parsing of a full string, Python int(str) style. -/
def pyParseInt (s : String) : Option Int :=
  match s.data with
  | [] => none
  | '-' :: c :: rest => (digitsAux 0 (c :: rest)).map (fun n => -(n : Int))
  | '+' :: c :: rest => (digitsAux 0 (c :: rest)).map (fun n => (n : Int))
  | l => (digitsAux 0 l).map (fun n => (n : Int))

/-- Response body of /api/all-records on success. -/
structure AllRecordsResp : Type where
  records : List Row
  total : Nat
  page : Nat
  per_page : Nat
  total_pages : Nat
  available_days : List String
deriving Repr, DecidableEq

/-- HTTP outcome of an endpoint: a 200 body, an explicit 4xx, or the 500
produced by the blanket exception handler. -/
inductive ApiResult (α : Type) : Type where
  | ok (body : α)
  | clientErr (code : Nat)
  | serverErr
deriving Repr, DecidableEq

/-- HTTP status code of an outcome (200 for a body). -/
def ApiResult.status : ApiResult α → Nat
  | .ok _ => 200
  | .clientErr c => c
  | .serverErr => 500

/-- Records of one page of the day-filtered listing (src/server.py lines
347-353): ORDER BY timestamp DESC LIMIT per_page OFFSET (page-1)*per_page
over the rows of one day. -/
def listByDayPage (st : Store) (day : String) (limit page : Nat) : List Row :=
  ((sortTsDesc (st.filter (fun r => decide (r.day = day)))).drop
    ((page - 1) * limit)).take limit

/-- The same day listing without LIMIT/OFFSET. -/
def listByDayFull (st : Store) (day : String) : List Row :=
  sortTsDesc (st.filter (fun r => decide (r.day = day)))

/-- Records of one page of the unfiltered listing (src/server.py lines
359-364). -/
def listRecentPage (st : Store) (limit page : Nat) : List Row :=
  ((sortTsDesc st).drop ((page - 1) * limit)).take limit

/-- Pagination denominator of line 378:
(total + per_page - 1) // per_page if total else 1. -/
def totalPagesOf (total per_page : Nat) : Nat :=
  if total = 0 then 1 else (total + per_page - 1) / per_page

/-- Models api_all_records (src/server.py lines 333-389).  The raw query
parameters page, per_page and day are given as optional strings; a
missing parameter takes the documented default.  A non-integer page or
per_page makes int() raise ValueError, which the blanket except turns
into a 500 response.  An empty day string is falsy, hence unfiltered.
The endpoint runs only SELECT statements, so the table is returned
unchanged. -/
def api_all_records (st : Store) (pageP perP dayP : Option String) :
    ApiResult AllRecordsResp × Store :=
  let pageI : Option Int := match pageP with
    | none => some 1
    | some s => pyParseInt s
  let perI : Option Int := match perP with
    | none => some 1000
    | some s => pyParseInt s
  match pageI, perI with
  | none, _ => (.serverErr, st)
  | _, none => (.serverErr, st)
  | some pv, some pp =>
    let page : Nat := (max 1 pv).toNat
    let per_page : Nat := (min 5000 (max 1 pp)).toNat
    let dayF : Option String := match dayP with
      | some d => if d.data.isEmpty then none else some d
      | none => none
    match dayF with
    | some d =>
      let total := (st.filter (fun r => decide (r.day = d))).length
      (.ok { records := listByDayPage st d per_page page
             total := total
             page := page
             per_page := per_page
             total_pages := totalPagesOf total per_page
             available_days := distinctDaysDesc st }, st)
    | none =>
      let total := st.length
      (.ok { records := listRecentPage st per_page page
             total := total
             page := page
             per_page := per_page
             total_pages := totalPagesOf total per_page
             available_days := distinctDaysDesc st }, st)

/-- Models generate_csv_string (src/server.py lines 132-168), abstracting
the textual CSV rendering by the ordered sequence of rows it renders
(ORDER BY timestamp ASC, optionally filtered by day; an empty or missing
day_filter is falsy, hence unfiltered). -/
def generate_csv_string (dayF : Option String) (st : Store) : List Row :=
  match dayF with
  | some d =>
    if d.data.isEmpty then sortTsAsc st
    else sortTsAsc (st.filter (fun r => decide (r.day = d)))
  | none => sortTsAsc st

/-- Models export_csv (src/server.py lines 419-448).  No data at all is a
404; a truthy day_number that does not parse as an integer is a 400; an
integer day_number outside 1..len(available_days) is a 404; otherwise the
CSV for the selected (or given) day is returned.  Only SELECT statements
run, so the table is returned unchanged. -/
def export_csv (st : Store) (dayP dayNumP : Option String) :
    ApiResult (List Row) × Store :=
  let avail := get_available_days st
  if avail.isEmpty then (.clientErr 404, st)
  else
    let dayNumT : Option String := match dayNumP with
      | some s => if s.data.isEmpty then none else some s
      | none => none
    match dayNumT with
    | some s =>
      match pyParseInt s with
      | none => (.clientErr 400, st)
      | some n =>
        if h : 0 ≤ n - 1 ∧ (n - 1).toNat < avail.length then
          (.ok (generate_csv_string (some (avail.get ⟨(n - 1).toNat, h.2⟩)) st), st)
        else (.clientErr 404, st)
    | none => (.ok (generate_csv_string dayP st), st)

/-- Projection of a parse result dict: the numeric latitude or longitude
field (the parsers always populate these with num values). -/
def dictNum (d : PyDict) (k : String) : ℚ :=
  match dictGet d k with
  | some (.num x) => x
  | _ => 0

/-- Projection of a parse result dict: the optional numeric altitude. -/
def dictOptNum (d : PyDict) (k : String) : Option ℚ :=
  match dictGet d k with
  | some (.num x) => some x
  | _ => none

/-- Projection of a parse result dict: the ts_utc string. -/
def dictStr (d : PyDict) (k : String) : String :=
  match dictGet d k with
  | some (.str s) => s
  | _ => ""

/-- Configuration of the background loop: ENABLE_CLEANUP, FETCH_INTERVAL,
and the retention cutoff string computed at cleanup time. -/
structure LoopConfig : Type where
  enableCleanup : Bool
  fetchInterval : Nat
  cutoff : String
deriving Repr, DecidableEq

/-- State carried across iterations of background_loop: the table and the
cleanup_counter local. -/
structure LoopState : Type where
  store : Store
  cleanupCounter : Nat
deriving Repr, DecidableEq

/-- Models one iteration of the while body of background_loop
(src/server.py lines 217-238): a successful fetch is saved; a failed
fetch (pos None) saves nothing; when cleanup is enabled the counter is
incremented and, at the threshold max(1, int(3600 / max(1,
FETCH_INTERVAL))), cleanup_old_data runs and the counter resets. -/
def background_tick (cfg : LoopConfig) (pos : Option PyDict) (st : LoopState) : LoopState :=
  let st1 : LoopState :=
    match pos with
    | some d =>
      let st2 := save_position (dictNum d "latitude") (dictNum d "longitude")
        (dictOptNum d "altitude") (dictStr d "ts_utc") st.store
      { st with store := st2 }
    | none => st
  if cfg.enableCleanup then
    let counter := st.cleanupCounter + 1
    let threshold := max 1 (3600 / max 1 cfg.fetchInterval)
    if threshold ≤ counter then
      { store := (cleanup_old_data cfg.cutoff st1.store).1, cleanupCounter := 0 }
    else { st1 with cleanupCounter := counter }
  else st1

/-- Input to one loop iteration: whether stop_event is set at the loop
head, and the result of fetch_iss_position for this tick (None models any
failed fetch: timeout, non-2xx, malformed body or parse error). -/
structure TickInput : Type where
  stopSet : Bool
  fetched : Option PyDict

/-- Models the while loop of background_loop over a finite trace of tick
inputs: the loop exits only when stop_event is set; otherwise every tick
attempts exactly one fetch and runs the body.  Returns the final state
and the number of polls attempted. -/
def background_run (cfg : LoopConfig) : List TickInput → LoopState → LoopState × Nat
  | [], st => (st, 0)
  | t :: ts, st =>
    if t.stopSet then (st, 0)
    else
      let st1 := background_tick cfg t.fetched st
      let res := background_run cfg ts st1
      (res.1, res.2 + 1)

/-- Models one row of the SAMPLE_DATA seeding loop (src/server.py lines
495-500): the timestamp column is strftime("%Y-%m-%d %H:%M:%S") of now
minus i seconds and the day column is strftime("%Y-%m-%d") of the same
instant.  Python float modulo is floor-based, modelled on rationals via
the floor of the quotient. -/
def sample_row (now : Int) (i : Nat) (rowid : Nat) : Row :=
  { rowid := rowid
    latitude := 45 + ((i % 180 : Nat) : ℚ) - 90
    longitude := -180 + (((i : ℚ) * (72 / 100)) - 360 * ⌊((i : ℚ) * (72 / 100)) / 360⌋)
    altitude := some (408 + ((i % 20 : Nat) : ℚ) * (3 / 10))
    timestamp := formatTs (now - (i : Int))
    day := formatDate (now - (i : Int)) }

/-- Concrete scenario store: three samples captured at unix times 1000,
1001 and 1062, appended in that order (same calendar day). -/
def scenarioStore : Store :=
  save_position 3 3 none (formatTs 1062)
    (save_position 2 2 none (formatTs 1001)
      (save_position 1 1 none (formatTs 1000) []))

/-- Concrete shape-B (wheretheiss.at) payload carrying altitude and
velocity fields. -/
def shapeBPayload : PyDict :=
  [("name", .str "iss"), ("latitude", .num 10), ("longitude", .num 20),
   ("altitude", .num 420), ("velocity", .num 27580), ("timestamp", .num 1000)]

/-- Concrete shape-A (open-notify) payload: nested position object with
only latitude and longitude, as decimal strings. -/
def shapeAPayload : PyDict :=
  [("iss_position", .obj [("latitude", .numStr 45), ("longitude", .numStr (-30))]),
   ("timestamp", .num 1000), ("message", .str "success")]

/-- Store where a sample dated 2024-01-01 was appended after a sample
dated 2024-01-02 (out-of-order arrival, which the design tolerates). -/
def outOfOrderStore : Store :=
  save_position 2 2 none "2024-01-01 00:00:00"
    (save_position 1 1 none "2024-01-02 00:00:00" [])

/-- Store with a single sample at 2024-01-05 00:00:00. -/
def cutoffDayStore : Store :=
  save_position 0 0 none "2024-01-05 00:00:00" []

theorem charListLt_irrefl : ∀ l : List Char, charListLt l l = false
  | [] => rfl
  | c :: cs => by
    simp only [charListLt]
    rw [if_neg (Nat.lt_irrefl _), if_neg (Nat.lt_irrefl _)]
    exact charListLt_irrefl cs

theorem charListLt_trans : ∀ (a b c : List Char),
    charListLt a b = true → charListLt b c = true → charListLt a c = true := by
  intro a
  induction a with
  | nil =>
    intro b c hab hbc
    cases b with
    | nil => simp [charListLt] at hab
    | cons y ys =>
      cases c with
      | nil => simp [charListLt] at hbc
      | cons z zs => simp [charListLt]
  | cons x xs ih =>
    intro b c hab hbc
    cases b with
    | nil => simp [charListLt] at hab
    | cons y ys =>
      cases c with
      | nil => simp [charListLt] at hbc
      | cons z zs =>
        simp only [charListLt] at hab hbc ⊢
        split_ifs at hab hbc ⊢ <;>
          first
          | rfl
          | omega
          | exact ih ys zs hab hbc

theorem charListLt_connex : ∀ (a b : List Char),
    charListLt a b = false → charListLt b a = true ∨ a = b := by
  intro a
  induction a with
  | nil =>
    intro b hab
    cases b with
    | nil => right; rfl
    | cons y ys => simp [charListLt] at hab
  | cons x xs ih =>
    intro b hab
    cases b with
    | nil => left; rfl
    | cons y ys =>
      simp only [charListLt] at hab ⊢
      rcases Nat.lt_trichotomy x.toNat y.toNat with h1 | h1 | h1
      · rw [if_pos h1] at hab; exact absurd hab (by simp)
      · have hxy : x = y := Char.eq_of_val_eq (UInt32.toNat.inj h1)
        rw [if_neg (by omega), if_neg (by omega)] at hab ⊢
        rcases ih ys hab with h2 | h2
        · left; exact h2
        · right; rw [hxy, h2]
      · left; rw [if_pos h1]

theorem strLt_irrefl (s : String) : strLt s s = false := charListLt_irrefl _

theorem strLt_trans {a b c : String} (h1 : strLt a b = true) (h2 : strLt b c = true) :
    strLt a c = true := charListLt_trans _ _ _ h1 h2

theorem strLt_connex {a b : String} (h : strLt a b = false) :
    strLt b a = true ∨ a = b := by
  rcases charListLt_connex a.data b.data h with h2 | h2
  · left; exact h2
  · right
    cases a
    cases b
    exact congrArg String.mk h2

theorem strLt_asymm {a b : String} (h : strLt a b = true) : strLt b a = false := by
  by_contra hc
  have h2 : strLt b a = true := by
    cases hba : strLt b a
    · exact absurd hba hc
    · rfl
  have := strLt_trans h h2
  rw [strLt_irrefl] at this
  exact Bool.false_ne_true this

theorem rowLe_total : ∀ a b : Row, rowLe a b ∨ rowLe b a := by
  intro a b
  cases hab : strLt b.timestamp a.timestamp
  · rcases strLt_connex hab with h2 | h2
    · right; left; exact h2
    · rcases Nat.le_total b.rowid a.rowid with h3 | h3
      · left; right; exact ⟨h2, h3⟩
      · right; right; exact ⟨h2.symm, h3⟩
  · left; left; exact hab

theorem rowLe_trans : ∀ a b c : Row, rowLe a b → rowLe b c → rowLe a c := by
  intro a b c hab hbc
  rcases hab with h1 | ⟨h1, h1r⟩ <;> rcases hbc with h2 | ⟨h2, h2r⟩
  · left; exact strLt_trans h2 h1
  · left; rw [h2]; exact h1
  · left; rw [← h1]; exact h2
  · right; exact ⟨h2.trans h1, h2r.trans h1r⟩

theorem string_mk_data (s : String) : String.mk s.data = s := by
  cases s
  rfl

theorem digitChar_ne_space (n : Nat) : digitChar n ≠ ' ' := by
  unfold digitChar
  split <;> decide

theorem natCharsAux_ne_space : ∀ (fuel n : Nat), ' ' ∉ natCharsAux fuel n := by
  intro fuel
  induction fuel with
  | zero =>
    intro n
    simp only [natCharsAux, List.mem_singleton]
    exact (digitChar_ne_space n).symm
  | succ m ih =>
    intro n
    by_cases h : n < 10
    · simp only [natCharsAux, if_pos h, List.mem_singleton]
      exact (digitChar_ne_space n).symm
    · simp only [natCharsAux, if_neg h, List.mem_append, List.mem_singleton]
      push_neg
      exact ⟨ih _, (digitChar_ne_space _).symm⟩

theorem natChars_ne_space (n : Nat) : ' ' ∉ natChars n := natCharsAux_ne_space n n

theorem pad2_ne_space (n : Nat) : ' ' ∉ (pad2 n).data := by
  unfold pad2 natStr
  by_cases h : n < 10
  · rw [if_pos h]
    simp only [List.mem_cons]
    push_neg
    exact ⟨by decide, natChars_ne_space n⟩
  · rw [if_neg h]
    exact natChars_ne_space n

theorem pad4_ne_space (n : Nat) : ' ' ∉ (pad4 n).data := by
  unfold pad4
  simp only [List.mem_append]
  push_neg
  constructor
  · intro hmem
    have := List.eq_of_mem_replicate hmem
    exact absurd this (by decide)
  · exact natChars_ne_space n

theorem yearStr_ne_space (y : Int) : ' ' ∉ (yearStr y).data := by
  unfold yearStr
  by_cases h : y < 0
  · rw [if_pos h]
    simp only [List.mem_cons]
    push_neg
    exact ⟨by decide, natChars_ne_space _⟩
  · rw [if_neg h]
    exact pad4_ne_space _

theorem formatDate_ne_space (t : Int) : ' ' ∉ (formatDate t).data := by
  unfold formatDate
  intro hmem
  simp only [String.data_append, List.mem_append] at hmem
  rcases hmem with ((((h | h) | h) | h) | h)
  · exact yearStr_ne_space _ h
  · exact absurd h (by decide)
  · exact pad2_ne_space _ h
  · exact absurd h (by decide)
  · exact pad2_ne_space _ h

theorem takeUntilSpace_append (xs ys : List Char) (h : ' ' ∉ xs) :
    takeUntilSpace (xs ++ ' ' :: ys) = xs := by
  induction xs with
  | nil => simp [takeUntilSpace]
  | cons c cs ih =>
    simp only [List.mem_cons] at h
    push_neg at h
    simp only [List.cons_append, takeUntilSpace]
    rw [if_neg (fun hc => h.1 hc.symm)]
    exact congrArg (fun l => c :: l) (ih h.2)

theorem splitHead_formatTs (t : Int) : splitHead (formatTs t) = formatDate t := by
  unfold splitHead formatTs
  have hdata : (formatDate t ++ " " ++ formatTime t).data =
      (formatDate t).data ++ ' ' :: (formatTime t).data := by
    simp [String.data_append]
  rw [hdata, takeUntilSpace_append _ _ (formatDate_ne_space t)]

theorem maxRowStep_foldl_mem : ∀ (l : List Row) (acc : Option Row) (a : Row),
    List.foldl maxRowStep acc l = some a → acc = some a ∨ a ∈ l := by
  intro l
  induction l with
  | nil =>
    intro acc a h
    left
    exact h
  | cons x xs ih =>
    intro acc a h
    rw [List.foldl_cons] at h
    rcases ih _ _ h with h2 | h2
    · cases acc with
      | none =>
        simp only [maxRowStep] at h2
        right
        exact List.mem_cons.mpr (Or.inl (Option.some.inj h2).symm)
      | some b =>
        simp only [maxRowStep] at h2
        by_cases hk : rowKeyLt b x
        · rw [if_pos hk] at h2
          right
          exact List.mem_cons.mpr (Or.inl (Option.some.inj h2).symm)
        · rw [if_neg hk] at h2
          left
          exact h2
    · right
      exact List.mem_cons.mpr (Or.inr h2)

theorem rowid_le_fold : ∀ (st : Store) (r : Row), r ∈ st →
    r.rowid ≤ st.foldr (fun r acc => max r.rowid acc) 0 := by
  intro st
  induction st with
  | nil =>
    intro r h
    cases h
  | cons x xs ih =>
    intro r h
    rcases List.mem_cons.mp h with h2 | h2
    · rw [h2]
      exact Nat.le_max_left _ _
    · exact Nat.le_trans (ih r h2) (Nat.le_max_right _ _)

theorem rowid_lt_nextRowid (st : Store) (r : Row) (h : r ∈ st) :
    r.rowid < nextRowid st :=
  Nat.lt_succ_of_le (rowid_le_fold st r h)

theorem length_filter_split {α : Type} (p : α → Bool) (l : List α) :
    (l.filter p).length + (l.filter (fun x => !p x)).length = l.length := by
  induction l with
  | nil => rfl
  | cons x xs ih =>
    cases hx : p x <;> simp [List.filter_cons, hx] <;> omega

theorem le_ceil_mul (t k : Nat) (hk : 0 < k) : t ≤ (t + k - 1) / k * k := by
  have h1 := Nat.div_add_mod (t + k - 1) k
  have h2 : (t + k - 1) % k < k := Nat.mod_lt _ hk
  rw [Nat.mul_comm]
  omega

theorem ceil_pred_mul_lt (t k : Nat) (hk : 0 < k) (ht : 0 < t) :
    ((t + k - 1) / k - 1) * k < t := by
  have h3 : t + k - 1 = (t - 1) + k := by omega
  rw [h3, Nat.add_div_right _ hk]
  simp only [Nat.add_sub_cancel]
  have h4 := Nat.div_mul_le_self (t - 1) k
  omega

theorem pagesFlatten {α : Type} (k : Nat) : ∀ (n : Nat) (l : List α),
    l.length ≤ n * k →
    ((List.range n).map (fun i => (l.drop (i * k)).take k)).flatten = l := by
  intro n
  induction n with
  | zero =>
    intro l h
    simp only [Nat.zero_mul, Nat.le_zero, List.length_eq_zero] at h
    simp [h]
  | succ m ih =>
    intro l h
    rw [List.range_succ_eq_map]
    simp only [List.map_cons, List.map_map, List.flatten_cons, Nat.zero_mul,
      List.drop_zero]
    have hmap : ((List.range m).map ((fun i => (l.drop (i * k)).take k) ∘ (· + 1))) =
        (List.range m).map (fun i => ((l.drop k).drop (i * k)).take k) := by
      apply List.map_congr_left
      intro i _
      simp only [Function.comp_apply, Nat.succ_eq_add_one]
      rw [List.drop_drop]
      have hik : (i + 1) * k = k + i * k := by ring
      rw [hik]
    have hlen : (l.drop k).length ≤ m * k := by
      simp only [List.length_drop]
      have hmk : (m + 1) * k = m * k + k := by ring
      omega
    rw [hmap, ih (l.drop k) hlen]
    exact List.take_append_drop k l

/-- C1 (amended): the eviction sweep deletes by full timestamp, not by
day bucket: a sample survives cleanup_old_data exactly when its timestamp
is not strictly before the cutoff timestamp (so samples inside the day
bucket of the cutoff itself can be deleted), and the record count before
the sweep equals the count after plus the reported deletion count. -/
theorem cleanup_deletes_by_timestamp (cutoff : String) (st : Store) :
    (∀ r, r ∈ (cleanup_old_data cutoff st).1 ↔
      r ∈ st ∧ strLt r.timestamp cutoff = false) ∧
    get_record_count st =
      get_record_count (cleanup_old_data cutoff st).1 +
        (cleanup_old_data cutoff st).2 := by
  constructor
  · intro r
    simp only [cleanup_old_data, List.mem_filter, Bool.not_eq_eq_eq_not,
      Bool.not_true]
  · simp only [cleanup_old_data, get_record_count]
    have hsplit := length_filter_split (fun r => strLt r.timestamp cutoff) st
    omega

/-- C1 counterexample: with cutoff timestamp "2024-01-05 12:00:00", a
stored sample whose day bucket "2024-01-05" equals the day bucket of the
cutoff (hence is not strictly before it) is nevertheless deleted by the
sweep, which reports one deletion. -/
theorem cleanup_deletes_within_cutoff_day :
    (cleanup_old_data "2024-01-05 12:00:00" cutoffDayStore).1 = [] ∧
    (cleanup_old_data "2024-01-05 12:00:00" cutoffDayStore).2 = 1 ∧
    (∀ r ∈ cutoffDayStore, r.day = splitHead "2024-01-05 12:00:00") ∧
    (∀ r ∈ cutoffDayStore, strLt r.day (splitHead "2024-01-05 12:00:00") = false) := by
  refine ⟨by decide, by decide, by decide, by decide⟩

/-- C3 counterexample: on the scenario store holding samples captured at
unix times 1000, 1001 and 1062, listing the 2 most recent samples does
not return them oldest first (1001 then 1062) as claimed. -/
theorem listRecent_not_ascending :
    (listRecentPage scenarioStore 2 1).map (fun r => r.timestamp) ≠
      [formatTs 1001, formatTs 1062] := by decide

/-- C3 (amended): the most-recent listing returns samples in descending
chronological order (newest first): every page of the unfiltered listing
is sorted by decreasing (timestamp, rowid) key, and on the scenario store
the two most recent samples come back as the 1062 sample followed by the
1001 sample. -/
theorem listRecent_descending :
    (∀ (st : Store) (limit page : Nat),
      List.Sorted rowLe (listRecentPage st limit page)) ∧
    (listRecentPage scenarioStore 2 1).map (fun r => r.timestamp) =
      [formatTs 1062, formatTs 1001] := by
  constructor
  · intro st limit page
    haveI : IsTotal Row rowLe := ⟨rowLe_total⟩
    haveI : IsTrans Row rowLe := ⟨rowLe_trans⟩
    have hs : List.Sorted rowLe (sortTsDesc st) :=
      List.sorted_insertionSort rowLe st
    unfold listRecentPage
    exact List.Pairwise.sublist
      ((List.take_sublist _ _).trans (List.drop_sublist _ _)) hs
  · decide

/-- C5 counterexample: after appending a sample dated 2024-01-01 to a
store already holding a sample dated 2024-01-02, the latest-sample query
returns the 2024-01-02 sample, not the one just appended. -/
theorem latest_not_last_appended :
    (api_current_fallback outOfOrderStore).map (fun r => r.timestamp) =
      some "2024-01-02 00:00:00" ∧
    ("2024-01-02 00:00:00" : String) ≠ "2024-01-01 00:00:00" := by
  refine ⟨by decide, by decide⟩

/-- C5 (amended): the latest-sample query returns the row of maximal
(timestamp, rowid) key; immediately after appending a sample whose
timestamp is not smaller than every stored timestamp it returns exactly
the appended sample, and on an empty store it reports no data. -/
theorem append_then_latest :
    (∀ (st : Store) (lat lon : ℚ) (alt : Option ℚ) (ts : String),
      (∀ r ∈ st, strLt ts r.timestamp = false) →
      api_current_fallback (save_position lat lon alt ts st) =
        some { rowid := nextRowid st, latitude := lat, longitude := lon,
               altitude := alt, timestamp := ts, day := splitHead ts }) ∧
    api_current_fallback ([] : Store) = none := by
  constructor
  · intro st lat lon alt ts h
    unfold api_current_fallback save_position
    rw [List.foldl_append]
    cases hacc : List.foldl maxRowStep none st with
    | none => rfl
    | some a =>
      have hmem : a ∈ st := by
        rcases maxRowStep_foldl_mem st none a hacc with h2 | h2
        · cases h2
        · exact h2
      have hkey : rowKeyLt a
          { rowid := nextRowid st, latitude := lat, longitude := lon,
            altitude := alt, timestamp := ts, day := splitHead ts } = true := by
        unfold rowKeyLt
        rcases strLt_connex (h a hmem) with hlt | heq
        · simp [hlt]
        · have hid : a.rowid < nextRowid st := rowid_lt_nextRowid st a hmem
          simp [heq, hid, strLt_irrefl]
      simp only [List.foldl_cons, List.foldl_nil, maxRowStep, hkey, if_pos]
  · rfl

/-- C5 witness: appending a sample with a larger timestamp than everything
stored and querying the latest sample returns exactly that sample. -/
theorem append_then_latest_witness :
    api_current_fallback (save_position 5 6 none "2024-01-03 00:00:00" outOfOrderStore) =
      some { rowid := nextRowid outOfOrderStore, latitude := 5, longitude := 6,
             altitude := none, timestamp := "2024-01-03 00:00:00",
             day := splitHead "2024-01-03 00:00:00" } :=
  append_then_latest.1 outOfOrderStore 5 6 none "2024-01-03 00:00:00" (by decide)

/-- C6: with a fixed positive page size and no concurrent modification,
concatenating the pages 1 through total_pages of the day-filtered listing
yields exactly the full listing for that day: no duplicate and no omitted
record. -/
theorem listByDay_pagination_stable (st : Store) (day : String) (limit : Nat)
    (hk : 0 < limit) :
    ((List.range (totalPagesOf
        ((st.filter (fun r => decide (r.day = day))).length) limit)).map
      (fun i => listByDayPage st day limit (i + 1))).flatten =
      listByDayFull st day := by
  have hlen : (sortTsDesc (st.filter (fun r => decide (r.day = day)))).length =
      (st.filter (fun r => decide (r.day = day))).length :=
    (List.perm_insertionSort rowLe _).length_eq
  have hmap : (List.range (totalPagesOf
        ((st.filter (fun r => decide (r.day = day))).length) limit)).map
      (fun i => listByDayPage st day limit (i + 1)) =
      (List.range (totalPagesOf
        ((st.filter (fun r => decide (r.day = day))).length) limit)).map
      (fun i => ((sortTsDesc (st.filter (fun r => decide (r.day = day)))).drop
        (i * limit)).take limit) := by
    apply List.map_congr_left
    intro i _
    unfold listByDayPage
    have hi : i + 1 - 1 = i := by omega
    rw [hi]
  rw [hmap]
  unfold listByDayFull
  apply pagesFlatten
  rw [hlen]
  unfold totalPagesOf
  by_cases h0 : (st.filter (fun r => decide (r.day = day))).length = 0
  · rw [if_pos h0]
    omega
  · rw [if_neg h0]
    exact le_ceil_mul _ _ hk

/-- C6 witness: on the scenario store with page size 2 the concatenation
of all pages of the 1970-01-01 listing is the full listing for that day. -/
theorem listByDay_pagination_stable_witness :
    ((List.range (totalPagesOf
        ((scenarioStore.filter (fun r => decide (r.day = "1970-01-01"))).length) 2)).map
      (fun i => listByDayPage scenarioStore "1970-01-01" 2 (i + 1))).flatten =
      listByDayFull scenarioStore "1970-01-01" :=
  listByDay_pagination_stable scenarioStore "1970-01-01" 2 (by decide)

/-- C7: a failed fetch never stops the poll loop: a tick whose fetch
failed changes nothing when cleanup is disabled and never inserts a row
in any configuration; a trace beginning with two failed polls still
performs a third poll; and as long as the stop event is never set the
loop attempts exactly one poll per tick, whatever the fetch outcomes. -/
theorem poll_loop_survives_failures :
    (∀ (cfg : LoopConfig) (st : LoopState), cfg.enableCleanup = false →
      background_tick cfg none st = st) ∧
    (∀ (cfg : LoopConfig) (st : LoopState),
      ((background_tick cfg none st).store).Sublist st.store) ∧
    (∀ (cfg : LoopConfig) (st : LoopState) (rest : List TickInput) (p : Option PyDict),
      3 ≤ (background_run cfg
        (⟨false, none⟩ :: ⟨false, none⟩ :: ⟨false, p⟩ :: rest) st).2) ∧
    (∀ (cfg : LoopConfig) (inputs : List TickInput) (st : LoopState),
      (∀ t ∈ inputs, t.stopSet = false) →
      (background_run cfg inputs st).2 = inputs.length) := by
  refine ⟨?_, ?_, ?_, ?_⟩
  · intro cfg st h
    simp [background_tick, h]
  · intro cfg st
    simp only [background_tick]
    split_ifs
    · exact List.filter_sublist _
    · exact List.Sublist.refl _
    · exact List.Sublist.refl _
  · intro cfg st rest p
    simp only [background_run, Bool.false_eq_true, if_false]
    omega
  · intro cfg inputs
    induction inputs with
    | nil => intro st h; rfl
    | cons t ts ih =>
      intro st h
      have ht : t.stopSet = false := h t (List.mem_cons_self t ts)
      simp only [background_run, ht, Bool.false_eq_true, if_false, List.length_cons]
      rw [ih _ (fun x hx => h x (List.mem_cons_of_mem t hx))]

/-- C9: every write path stores a day bucket equal to the calendar-day
truncation (the prefix before the first space) of the stored timestamp
text: save_position does so for the row it inserts and preserves the
invariant for existing rows, and every row of the SAMPLE_DATA seed loop
satisfies it as well. -/
theorem day_equals_timestamp_prefix :
    (∀ (lat lon : ℚ) (alt : Option ℚ) (ts : String) (st : Store),
      (∀ r ∈ st, r.day = splitHead r.timestamp) →
      ∀ r ∈ save_position lat lon alt ts st, r.day = splitHead r.timestamp) ∧
    (∀ (now : Int) (i rowid : Nat),
      (sample_row now i rowid).day = splitHead (sample_row now i rowid).timestamp) := by
  constructor
  · intro lat lon alt ts st h r hr
    rcases List.mem_append.mp hr with h2 | h2
    · exact h r h2
    · rcases List.mem_singleton.mp h2 with rfl
      rfl
  · intro now i rowid
    exact (splitHead_formatTs (now - (i : Int))).symm

/-- C9 witness: the single row inserted by save_position into an empty
store carries day "2024-01-05", the prefix of its timestamp text. -/
theorem day_equals_timestamp_prefix_witness :
    ({ rowid := 1, latitude := 0, longitude := 0, altitude := none,
       timestamp := "2024-01-05 00:00:00", day := "2024-01-05" } : Row).day =
      splitHead ({ rowid := 1, latitude := 0, longitude := 0,
                   altitude := none, timestamp := "2024-01-05 00:00:00",
                   day := "2024-01-05" } : Row).timestamp :=
  day_equals_timestamp_prefix.1 0 0 none "2024-01-05 00:00:00" []
    (by simp) _ (by decide)

/-- Characterization of the pagination denominator of line 378. -/
theorem totalPagesOf_spec (t k : Nat) (hk : 0 < k) :
    (t = 0 → totalPagesOf t k = 1) ∧
    (0 < t → t ≤ totalPagesOf t k * k ∧ (totalPagesOf t k - 1) * k < t) := by
  unfold totalPagesOf
  constructor
  · intro h
    rw [if_pos h]
  · intro h
    rw [if_neg (by omega)]
    exact ⟨le_ceil_mul t k hk, ceil_pred_mul_lt t k hk h⟩

/-- C7 witness: on a three-tick trace of failed fetches with the stop
event never set, the loop attempts exactly three polls. -/
theorem poll_loop_survives_failures_witness :
    (background_run { enableCleanup := false, fetchInterval := 60, cutoff := "" }
      [⟨false, none⟩, ⟨false, none⟩, ⟨false, none⟩]
      { store := [], cleanupCounter := 0 }).2 = 3 :=
  poll_loop_survives_failures.2.2.2
    { enableCleanup := false, fetchInterval := 60, cutoff := "" }
    [⟨false, none⟩, ⟨false, none⟩, ⟨false, none⟩]
    { store := [], cleanupCounter := 0 } (by decide)

/-- C10: whenever the page and per_page query parameters parse as
integers, the endpoint answers 200 with an effective page of at least 1,
an effective per_page clamped into [1, 5000], and a total_pages field
equal to the ceiling of total / per_page when total is positive and to 1
when total is zero (the ceiling is characterized by its two defining
inequalities). -/
theorem pagination_params_clamped (st : Store) (pageS perS : String)
    (dayP : Option String) (pv pp : Int) (r : AllRecordsResp)
    (hpage : pyParseInt pageS = some pv) (hper : pyParseInt perS = some pp)
    (hok : (api_all_records st (some pageS) (some perS) dayP).1 = .ok r) :
    1 ≤ r.page ∧ 1 ≤ r.per_page ∧ r.per_page ≤ 5000 ∧
    (r.total = 0 → r.total_pages = 1) ∧
    (0 < r.total → r.total ≤ r.total_pages * r.per_page ∧
      (r.total_pages - 1) * r.per_page < r.total) := by
  simp only [api_all_records, hpage, hper] at hok
  have hper1 : 1 ≤ (min 5000 (max 1 pp)).toNat := by omega
  have hper2 : (min 5000 (max 1 pp)).toNat ≤ 5000 := by omega
  have hpage1 : 1 ≤ (max 1 pv).toNat := by omega
  have hex : ∃ recs total,
      r = { records := recs, total := total, page := (max 1 pv).toNat,
            per_page := (min 5000 (max 1 pp)).toNat,
            total_pages := totalPagesOf total ((min 5000 (max 1 pp)).toNat),
            available_days := distinctDaysDesc st } := by
    rcases dayP with _ | d0
    · exact ⟨_, _, (ApiResult.ok.inj hok).symm⟩
    · dsimp only at hok
      by_cases he : d0.data.isEmpty
      · rw [if_pos he] at hok
        exact ⟨_, _, (ApiResult.ok.inj hok).symm⟩
      · rw [if_neg he] at hok
        exact ⟨_, _, (ApiResult.ok.inj hok).symm⟩
  rcases hex with ⟨recs, total, rfl⟩
  dsimp only
  refine ⟨hpage1, hper1, hper2, ?_, ?_⟩
  · intro h0
    exact (totalPagesOf_spec _ _ (by omega)).1 h0
  · intro h0
    exact (totalPagesOf_spec _ _ (by omega)).2 h0

/-- C10 witness: with page "-7" and per_page "999999" on the scenario
store filtered to an unknown day, the endpoint clamps to page 1 and
per_page 5000 and reports one (empty) page. -/
theorem pagination_params_clamped_witness :
    1 ≤ ({ records := [], total := 0, page := 1, per_page := 5000,
           total_pages := 1, available_days := ["1970-01-01"] } : AllRecordsResp).page ∧
    1 ≤ ({ records := [], total := 0, page := 1, per_page := 5000,
           total_pages := 1, available_days := ["1970-01-01"] } : AllRecordsResp).per_page ∧
    ({ records := [], total := 0, page := 1, per_page := 5000,
       total_pages := 1, available_days := ["1970-01-01"] } : AllRecordsResp).per_page ≤ 5000 ∧
    (({ records := [], total := 0, page := 1, per_page := 5000,
        total_pages := 1, available_days := ["1970-01-01"] } : AllRecordsResp).total = 0 →
      ({ records := [], total := 0, page := 1, per_page := 5000,
         total_pages := 1, available_days := ["1970-01-01"] } : AllRecordsResp).total_pages = 1) ∧
    (0 < ({ records := [], total := 0, page := 1, per_page := 5000,
            total_pages := 1, available_days := ["1970-01-01"] } : AllRecordsResp).total →
      ({ records := [], total := 0, page := 1, per_page := 5000,
         total_pages := 1, available_days := ["1970-01-01"] } : AllRecordsResp).total ≤
        ({ records := [], total := 0, page := 1, per_page := 5000,
           total_pages := 1, available_days := ["1970-01-01"] } : AllRecordsResp).total_pages *
          ({ records := [], total := 0, page := 1, per_page := 5000,
             total_pages := 1, available_days := ["1970-01-01"] } : AllRecordsResp).per_page ∧
      (({ records := [], total := 0, page := 1, per_page := 5000,
          total_pages := 1, available_days := ["1970-01-01"] } : AllRecordsResp).total_pages - 1) *
          ({ records := [], total := 0, page := 1, per_page := 5000,
             total_pages := 1, available_days := ["1970-01-01"] } : AllRecordsResp).per_page <
        ({ records := [], total := 0, page := 1, per_page := 5000,
           total_pages := 1, available_days := ["1970-01-01"] } : AllRecordsResp).total) :=
  pagination_params_clamped scenarioStore "-7" "999999" (some "2030-01-01")
    (-7) 999999
    { records := [], total := 0, page := 1, per_page := 5000,
      total_pages := 1, available_days := ["1970-01-01"] }
    (by decide) (by decide) (by decide)

theorem altitudeStep_of_none (data : PyDict) (h : dictGet data "altitude" = none) :
    altitudeStep data = .ok PyVal.pyNone := by
  unfold altitudeStep
  rw [h]

theorem altitudeStep_of_null (data : PyDict)
    (h : dictGet data "altitude" = some PyVal.pyNone) :
    altitudeStep data = .ok PyVal.pyNone := by
  unfold altitudeStep
  rw [h]

theorem altitudeStep_of_num (data : PyDict) (v : PyVal) (q : ℚ)
    (h : dictGet data "altitude" = some v) (hq : pyFloat v = .ok q) :
    altitudeStep data = .ok (PyVal.num q) := by
  unfold altitudeStep
  rw [h]
  cases v with
  | num x =>
    simp only [pyFloat, Except.ok.injEq] at hq
    subst hq
    rfl
  | numStr x =>
    simp only [pyFloat, Except.ok.injEq] at hq
    subst hq
    rfl
  | str s => simp [pyFloat] at hq
  | pyNone => simp [pyFloat] at hq
  | obj fs => simp [pyFloat] at hq
  | boolean b =>
    simp only [pyFloat, Except.ok.injEq] at hq
    subst hq
    rfl

theorem parse_wther_ok_shape (now : Int) (data : PyDict) (d : PyDict)
    (h : parse_wther_resp now data = .ok d) :
    ∃ (ts : Int) (lat lon : ℚ) (alt : PyVal),
      pyFloat ((dictGet data "latitude").getD .pyNone) = .ok lat ∧
      pyFloat ((dictGet data "longitude").getD .pyNone) = .ok lon ∧
      altitudeStep data = .ok alt ∧
      d = [("latitude", .num lat), ("longitude", .num lon),
           ("altitude", alt), ("ts_utc", .str (formatTs ts))] := by
  unfold parse_wther_resp at h
  rcases hts : tsStep now data with e | ts
  · rw [hts] at h
    simp [Bind.bind, Except.bind] at h
  · rw [hts] at h
    simp only [Bind.bind, Except.bind] at h
    rcases hlat : pyFloat ((dictGet data "latitude").getD .pyNone) with e | lat
    · rw [hlat] at h
      simp at h
    · rw [hlat] at h
      rcases hlon : pyFloat ((dictGet data "longitude").getD .pyNone) with e | lon
      · rw [hlon] at h
        simp at h
      · rw [hlon] at h
        rcases halt : altitudeStep data with e | alt
        · rw [halt] at h
          simp at h
        · rw [halt] at h
          simp only [Except.ok.injEq] at h
          exact ⟨ts, lat, lon, alt, rfl, rfl, rfl, h.symm⟩

theorem parse_open_ok_shape (now : Int) (data : PyDict) (d : PyDict)
    (h : parse_open_notify now data = .ok d) :
    ∃ (ts : Int) (pos : PyDict) (lat lon : ℚ),
      issPositionStep data = .ok pos ∧
      pyFloat ((dictGet pos "latitude").getD .pyNone) = .ok lat ∧
      pyFloat ((dictGet pos "longitude").getD .pyNone) = .ok lon ∧
      d = [("latitude", .num lat), ("longitude", .num lon),
           ("altitude", PyVal.pyNone), ("ts_utc", .str (formatTs ts))] := by
  unfold parse_open_notify at h
  rcases hts : tsStep now data with e | ts
  · rw [hts] at h
    simp [Bind.bind, Except.bind] at h
  · rw [hts] at h
    simp only [Bind.bind, Except.bind] at h
    rcases hpos : issPositionStep data with e | pos
    · rw [hpos] at h
      simp at h
    · rw [hpos] at h
      dsimp only at h
      rcases hlat : pyFloat ((dictGet pos "latitude").getD .pyNone) with e | lat
      · rw [hlat] at h
        simp at h
      · rw [hlat] at h
        rcases hlon : pyFloat ((dictGet pos "longitude").getD .pyNone) with e | lon
        · rw [hlon] at h
          simp at h
        · rw [hlon] at h
          simp only [Except.ok.injEq] at h
          exact ⟨ts, pos, lat, lon, rfl, hlat, hlon, h.symm⟩

/-- C2 (amended): the Adapter populates altitude exactly when the payload
shape provides it (shape A always leaves it absent; shape B populates it
from a present non-null altitude member and leaves it absent otherwise),
but it never populates a velocity field for either shape: the produced
Sample dict has no velocity member at all, even when the shape-B payload
carries one. -/
theorem adapter_altitude_velocity :
    (∀ (now : Int) (data d : PyDict), parse_open_notify now data = .ok d →
      dictGet d "altitude" = some PyVal.pyNone ∧ dictGet d "velocity" = none) ∧
    (∀ (now : Int) (data d : PyDict), parse_wther_resp now data = .ok d →
      dictGet d "velocity" = none ∧
      (dictGet data "altitude" = none → dictGet d "altitude" = some PyVal.pyNone) ∧
      (dictGet data "altitude" = some PyVal.pyNone →
        dictGet d "altitude" = some PyVal.pyNone) ∧
      (∀ (v : PyVal) (q : ℚ), dictGet data "altitude" = some v →
        pyFloat v = .ok q → dictGet d "altitude" = some (PyVal.num q))) := by
  constructor
  · intro now data d h
    rcases parse_open_ok_shape now data d h with ⟨ts, pos, lat, lon, hpos, hlat, hlon, rfl⟩
    exact ⟨rfl, rfl⟩
  · intro now data d h
    rcases parse_wther_ok_shape now data d h with ⟨ts, lat, lon, alt, hlat, hlon, halt, rfl⟩
    refine ⟨rfl, ?_, ?_, ?_⟩
    · intro hn
      rw [altitudeStep_of_none data hn] at halt
      have ha : alt = PyVal.pyNone := (Except.ok.inj halt).symm
      subst ha
      rfl
    · intro hn
      rw [altitudeStep_of_null data hn] at halt
      have ha : alt = PyVal.pyNone := (Except.ok.inj halt).symm
      subst ha
      rfl
    · intro v q hv hq
      rw [altitudeStep_of_num data v q hv hq] at halt
      have ha : alt = PyVal.num q := (Except.ok.inj halt).symm
      subst ha
      rfl

/-- C2 counterexample: parsing a valid shape-B payload that carries both
altitude and velocity succeeds, populates the altitude, but produces a
Sample dict with no velocity member at all, contrary to the claim that
shape B populates both. -/
theorem shapeB_velocity_dropped :
    (match parse_wther_resp 0 shapeBPayload with
     | .ok d => dictGet d "velocity" = none ∧ dictGet d "altitude" = some (.num 420)
     | .error _ => False) := by
  exact ⟨rfl, rfl⟩

/-- C2 witness: on the concrete shape-A payload the Adapter leaves both
altitude and velocity unpopulated. -/
theorem adapter_altitude_velocity_witness :
    dictGet [("latitude", PyVal.num 45), ("longitude", PyVal.num (-30)),
             ("altitude", PyVal.pyNone),
             ("ts_utc", PyVal.str "1970-01-01 00:16:40")] "altitude" =
        some PyVal.pyNone ∧
      dictGet [("latitude", PyVal.num 45), ("longitude", PyVal.num (-30)),
               ("altitude", PyVal.pyNone),
               ("ts_utc", PyVal.str "1970-01-01 00:16:40")] "velocity" = none :=
  adapter_altitude_velocity.1 0 shapeAPayload
    [("latitude", PyVal.num 45), ("longitude", PyVal.num (-30)),
     ("altitude", PyVal.pyNone), ("ts_utc", PyVal.str "1970-01-01 00:16:40")]
    rfl

/-- C4: a payload whose latitude or longitude member is missing or not
convertible by float() makes the Adapter raise (ParseError), the fetch
wrapper turns any such parser exception into None so no Sample is
produced, and a tick of the poll loop whose fetch produced None writes
nothing to the store (with cleanup disabled the state is untouched; in
any configuration no row is inserted). -/
theorem bad_coordinates_reject_sample :
    (∀ (now : Int) (data : PyDict),
      ((∃ e, pyFloat ((dictGet data "latitude").getD .pyNone) = .error e) ∨
       (∃ e, pyFloat ((dictGet data "longitude").getD .pyNone) = .error e)) →
      ∃ e, parse_wther_resp now data = .error e) ∧
    (∀ (now : Int) (data pos : PyDict), issPositionStep data = .ok pos →
      ((∃ e, pyFloat ((dictGet pos "latitude").getD .pyNone) = .error e) ∨
       (∃ e, pyFloat ((dictGet pos "longitude").getD .pyNone) = .error e)) →
      ∃ e, parse_open_notify now data = .error e) ∧
    (∀ (now : Int) (data : PyDict),
      (∃ e, parse_wther_resp now data = .error e) →
      pyTruthy (dictGet data "iss_position") = false →
      fetch_iss_position now (.jsonOf (.obj data)) = none) ∧
    (∀ (now : Int) (data : PyDict),
      (∃ e, parse_open_notify now data = .error e) →
      pyTruthy (dictGet data "iss_position") = true →
      fetch_iss_position now (.jsonOf (.obj data)) = none) ∧
    (∀ (cfg : LoopConfig) (st : LoopState), cfg.enableCleanup = false →
      background_tick cfg none st = st) ∧
    (∀ (cfg : LoopConfig) (st : LoopState),
      ((background_tick cfg none st).store).Sublist st.store) := by
  refine ⟨?_, ?_, ?_, ?_, ?_, ?_⟩
  · intro now data hbad
    rcases hres : parse_wther_resp now data with e | d
    · exact ⟨e, rfl⟩
    · exfalso
      rcases parse_wther_ok_shape now data d hres with
        ⟨ts, lat, lon, alt, hlat, hlon, halt, hd⟩
      rcases hbad with ⟨e, he⟩ | ⟨e, he⟩
      · rw [he] at hlat
        cases hlat
      · rw [he] at hlon
        cases hlon
  · intro now data pos hpos hbad
    rcases hres : parse_open_notify now data with e | d
    · exact ⟨e, rfl⟩
    · exfalso
      rcases parse_open_ok_shape now data d hres with
        ⟨ts, pos2, lat, lon, hpos2, hlat, hlon, hd⟩
      rw [hpos] at hpos2
      have hpp : pos = pos2 := Except.ok.inj hpos2
      subst hpp
      rcases hbad with ⟨e, he⟩ | ⟨e, he⟩
      · rw [he] at hlat
        cases hlat
      · rw [he] at hlon
        cases hlon
  · intro now data herr htruthy
    rcases herr with ⟨e, he⟩
    simp [fetch_iss_position, htruthy, he, Except.toOption]
  · intro now data herr htruthy
    rcases herr with ⟨e, he⟩
    simp [fetch_iss_position, htruthy, he, Except.toOption]
  · intro cfg st h
    simp [background_tick, h]
  · intro cfg st
    simp only [background_tick]
    split_ifs
    · exact List.filter_sublist _
    · exact List.Sublist.refl _
    · exact List.Sublist.refl _

/-- C4 witness: a flat payload with no latitude member is rejected by the
Adapter with an exception. -/
theorem bad_coordinates_reject_sample_witness :
    ∃ e, parse_wther_resp 0 [("longitude", PyVal.num 20)] = .error e :=
  bad_coordinates_reject_sample.1 0 [("longitude", PyVal.num 20)]
    (Or.inl ⟨PyErr.typeErr, rfl⟩)

/-- C8 counterexample: a request to the paginated listing with the
non-integer page parameter "abc" is answered with the generic 500 server
error produced by the blanket exception handler, not with a 4xx client
error as claimed. -/
theorem nonint_page_gives_server_error :
    api_all_records scenarioStore (some "abc") none none =
      (.serverErr, scenarioStore) ∧
    (api_all_records scenarioStore (some "abc") none none).1.status = 500 := by
  exact ⟨by decide, by decide⟩

/-- C8 (amended): bad request parameters never mutate the store, but they
are not uniformly answered with 4xx: the CSV export answers 400 for a
non-integer day_number and 404 for an out-of-range day index or an empty
data set, all with the store unchanged; the paginated listing leaves the
store unchanged for every parameter value, yet answers an unknown
(nonempty) day bucket with an ordinary 200 holding zero records (or 500
when the page parameter is itself unparseable). -/
theorem bad_params_handling :
    (∀ (st : Store) (dayP : Option String) (s : String),
      get_available_days st ≠ [] → s.data ≠ [] → pyParseInt s = none →
      export_csv st dayP (some s) = (.clientErr 400, st)) ∧
    (∀ (st : Store) (dayP : Option String) (s : String) (n : Int),
      get_available_days st ≠ [] → s.data ≠ [] → pyParseInt s = some n →
      ¬(0 ≤ n - 1 ∧ (n - 1).toNat < (get_available_days st).length) →
      export_csv st dayP (some s) = (.clientErr 404, st)) ∧
    (∀ (st : Store) (dayP dayNumP : Option String),
      get_available_days st = [] →
      export_csv st dayP dayNumP = (.clientErr 404, st)) ∧
    (∀ (st : Store) (p q d : Option String), (api_all_records st p q d).2 = st) ∧
    (∀ (st : Store) (p q : Option String) (d : String),
      (∀ r ∈ st, r.day ≠ d) → d.data ≠ [] →
      ((api_all_records st p q (some d)).1 = .serverErr ∨
       ∃ body, (api_all_records st p q (some d)).1 = .ok body ∧
         body.records = [] ∧ body.total = 0)) := by
  refine ⟨?_, ?_, ?_, ?_, ?_⟩
  · intro st dayP s hav hs hparse
    have hae : (get_available_days st).isEmpty = false := by
      cases hh : (get_available_days st).isEmpty
      · rfl
      · exact absurd (List.isEmpty_iff.mp hh) hav
    have hse : s.data.isEmpty = false := by
      cases hh : s.data.isEmpty
      · rfl
      · exact absurd (List.isEmpty_iff.mp hh) hs
    simp [export_csv, hae, hse, hparse]
  · intro st dayP s n hav hs hparse hrange
    have hae : (get_available_days st).isEmpty = false := by
      cases hh : (get_available_days st).isEmpty
      · rfl
      · exact absurd (List.isEmpty_iff.mp hh) hav
    have hse : s.data.isEmpty = false := by
      cases hh : s.data.isEmpty
      · rfl
      · exact absurd (List.isEmpty_iff.mp hh) hs
    simp [export_csv, hae, hse, hparse, hrange]
    omega
  · intro st dayP dayNumP hav
    have hae : (get_available_days st).isEmpty = true := List.isEmpty_iff.mpr hav
    simp [export_csv, hae]
  · intro st p q d
    rcases hp : (match p with
      | none => some (1 : Int)
      | some s => pyParseInt s : Option Int) with _ | pv
    · simp only [api_all_records, hp]
    · rcases hq : (match q with
        | none => some (1000 : Int)
        | some s => pyParseInt s : Option Int) with _ | pp
      · simp only [api_all_records, hp, hq]
      · rcases hd : (match d with
          | some d0 => if d0.data.isEmpty then none else some d0
          | none => none : Option String) with _ | d0
        · simp only [api_all_records, hp, hq, hd]
        · simp only [api_all_records, hp, hq, hd]
  · intro st p q d hnoday hne
    have hse : d.data.isEmpty = false := by
      cases hh : d.data.isEmpty
      · rfl
      · exact absurd (List.isEmpty_iff.mp hh) hne
    have hf : st.filter (fun r => decide (r.day = d)) = [] :=
      List.filter_eq_nil_iff.mpr (fun a ha => by simpa using hnoday a ha)
    rcases hp : (match p with
      | none => some (1 : Int)
      | some s => pyParseInt s : Option Int) with _ | pv
    · left
      simp only [api_all_records, hp]
    · rcases hq : (match q with
        | none => some (1000 : Int)
        | some s => pyParseInt s : Option Int) with _ | pp
      · left
        simp only [api_all_records, hp, hq]
      · right
        refine ⟨{ records := listByDayPage st d (min 5000 (max 1 pp)).toNat
                    (max 1 pv).toNat,
                  total := (st.filter (fun r => decide (r.day = d))).length,
                  page := (max 1 pv).toNat,
                  per_page := (min 5000 (max 1 pp)).toNat,
                  total_pages := totalPagesOf
                    ((st.filter (fun r => decide (r.day = d))).length)
                    ((min 5000 (max 1 pp)).toNat),
                  available_days := distinctDaysDesc st }, ?_, ?_, ?_⟩
        · simp only [api_all_records, hp, hq, hse, Bool.false_eq_true, if_false]
        · dsimp only
          unfold listByDayPage
          rw [hf]
          simp [sortTsDesc, List.insertionSort]
        · dsimp only
          rw [hf]
          rfl

/-- C8 witness: on the scenario store, an export request with the
non-integer day_number "abc" is answered 400 with the store unchanged. -/
theorem bad_params_handling_witness :
    export_csv scenarioStore none (some "abc") = (.clientErr 400, scenarioStore) :=
  bad_params_handling.1 scenarioStore none "abc" (by decide) (by decide) (by decide)
